import Mathlib

/-!
Verification of the invoice agent HTTP facade
(src/foundry_agent_demo/invoice_agent_api.py).

The code is a thin layer over an external agent platform.  We embed it
shallowly: the platform (the `project_client.agents` handle) becomes a record
of operations returning `Except String` values, where `Except.error e` models
a Python exception whose `str` is `e`.  Each service operation is a pure Lean
function over that record; alongside its response it returns the list of
platform calls it performed, so that claims of the form "no platform call is
attempted" are statable.  JSON response bodies become Lean structures in which
a field of type `Option` models a JSON key that may be absent or null.
-/

namespace InvoiceAgent

/-- A thread handle returned by the platform (only its id is read). -/
structure AgentThread where
  id : String
deriving DecidableEq, Repr

/-- A run object returned by the run-and-wait platform call: terminal status
and the textual form of its last error. -/
structure AgentRun where
  status : String
  last_error : String
deriving DecidableEq, Repr

/-- A message as returned by the platform listing call: role, the list of the
string values of its text segments (Python `msg.text_messages[i].text.value`),
and its creation timestamp in ISO form when the attribute is present
(Python `hasattr(msg, 'created_at')`). -/
structure PlatformMsg where
  role : String
  text_messages : List String
  created_at : Option String
deriving DecidableEq, Repr

/-- A record of one remote call made against the platform, used to trace which
calls an operation performs.  `runAgent` carries the thread id and the agent
id passed along; `postMessage` carries the thread id and the user text. -/
inductive PlatformCall where
  | createThread : PlatformCall
  | postMessage (thread_id : String) (content : String) : PlatformCall
  | runAgent (thread_id : String) (agent_id : Option String) : PlatformCall
  | listMessages (thread_id : String) : PlatformCall
deriving DecidableEq, Repr

/-- The external agent platform as seen through `project_client.agents`:
thread creation, user-message posting, run to completion, and the
ascending-order message listing.  `Except.error e` models the call raising an
exception with description `e`.  `messages_list` models the listing with
`ListSortOrder.ASCENDING`, the only order the code ever requests. -/
structure Platform where
  threads_create : Except String AgentThread
  messages_create : String → String → Except String Unit
  runs_create_and_process : String → Option String → Except String AgentRun
  messages_list : String → Except String (List PlatformMsg)

/-- One entry of the reshaped conversation: the dict
`{"role": .., "content": .., "timestamp": ..}` built by the loops at lines
92-99 and 207-214 of the source. -/
structure ConvEntry where
  role : String
  content : String
  timestamp : String
deriving DecidableEq, Repr

/-- A JSON response body.  Fields of type `Option` model keys that a given
branch may leave out of the dict it builds (`none` = key absent, or the JSON
null for `thread_id` when the Python variable is `None`). -/
structure RespBody where
  success : Bool
  thread_id : Option String := none
  conversation : Option (List ConvEntry) := none
  run_status : Option String := none
  error : Option String := none
  messages : Option (List ConvEntry) := none
  created_at : Option String := none
deriving DecidableEq, Repr

/-- An HTTP response: status code plus JSON body. -/
structure HttpResp where
  status : Nat
  body : RespBody
deriving DecidableEq, Repr

/-- The body of the health endpoint response. -/
structure HealthBody where
  status : String
  service : String
  timestamp : String
  agent_available : Bool
deriving DecidableEq, Repr

/-- The service state once constructed: the platform handle and the agent id
read from the environment (`os.getenv` may yield null, hence `Option`). -/
structure InvoiceAgentService where
  platform : Platform
  agent_id : Option String

/-- Python truthiness of an optional string: `None` and the empty string are
falsy, every other string is truthy (`if not thread_id:` at line 58). -/
def strTruthy : Option String → Bool
  | none => false
  | some s => !s.isEmpty

/-- The parsed JSON body of a chat request: the optional `message` and
`thread_id` keys (`none` = key absent). -/
structure ChatRequest where
  message : Option String
  thread_id : Option String
deriving DecidableEq, Repr

/-- The failure envelope built by the `except` clause of
`process_invoice_message` (lines 108-115): success false, the description of
the exception prefixed as in the f-string, and the thread id variable as it
stands at that point. -/
def errorEnvelope (e : String) (thread_id : Option String) : RespBody :=
  { success := false
    error := some ("Error processing message: " ++ e)
    thread_id := thread_id }

/-- One iteration of the formatting loop (lines 93-99): append an entry when
the message has at least one text segment (`if msg.text_messages:`), taking
the value of the last segment (`msg.text_messages[-1].text.value`) and the
creation timestamp, defaulting to the current time when absent. -/
def convStep (now : String) (conversation : List ConvEntry) (msg : PlatformMsg) :
    List ConvEntry :=
  match msg.text_messages.getLast? with
  | some content =>
      conversation ++
        [{ role := msg.role, content := content,
           timestamp := msg.created_at.getD now }]
  | none => conversation

/-- The formatting loop of lines 92-99 (also lines 207-214): fold over the
listed messages building the conversation. -/
def formatConversation (now : String) (msgs : List PlatformMsg) : List ConvEntry :=
  msgs.foldl (convStep now) []

/-- The part of `process_invoice_message` after the thread id is settled
(lines 63-106): post the user message, run the agent, and either report the
failed run (lines 76-83) or list and reshape the messages (lines 85-106).
Any platform error lands in the `except` clause, modelled by
`errorEnvelope`. -/
def afterThread (p : Platform) (agent_id : Option String)
    (now user_message thread_id : String) : RespBody × List PlatformCall :=
  match p.messages_create thread_id user_message with
  | .error e =>
      (errorEnvelope e (some thread_id), [.postMessage thread_id user_message])
  | .ok _ =>
    match p.runs_create_and_process thread_id agent_id with
    | .error e =>
        (errorEnvelope e (some thread_id),
         [.postMessage thread_id user_message, .runAgent thread_id agent_id])
    | .ok run =>
      if run.status == "failed" then
        ({ success := false
           error := some ("Agent run failed: " ++ run.last_error)
           thread_id := some thread_id },
         [.postMessage thread_id user_message, .runAgent thread_id agent_id])
      else
        match p.messages_list thread_id with
        | .error e =>
            (errorEnvelope e (some thread_id),
             [.postMessage thread_id user_message, .runAgent thread_id agent_id,
              .listMessages thread_id])
        | .ok msgs =>
            ({ success := true
               thread_id := some thread_id
               conversation := some (formatConversation now msgs)
               run_status := some run.status },
             [.postMessage thread_id user_message, .runAgent thread_id agent_id,
              .listMessages thread_id])

/-- `InvoiceAgentService.process_invoice_message` (lines 54-115).  When the
supplied thread id is falsy a thread is created first (lines 58-61); a
creation failure is caught by the `except` clause with the thread id variable
still holding the caller value.  Returns the envelope together with the trace
of platform calls performed. -/
def process_invoice_message (p : Platform) (agent_id : Option String)
    (now user_message : String) (thread_id : Option String) :
    RespBody × List PlatformCall :=
  if strTruthy thread_id then
    afterThread p agent_id now user_message (thread_id.getD "")
  else
    match p.threads_create with
    | .ok thread =>
        let r := afterThread p agent_id now user_message thread.id
        (r.1, .createThread :: r.2)
    | .error e =>
        (errorEnvelope e thread_id, [.createThread])

/-- The body returned by the `if not invoice_service` guards
(lines 137-141, 172-176, 195-199). -/
def serviceUnavailableBody : RespBody :=
  { success := false, error := some "Invoice service not available" }

/-- The chat endpoint `chat_with_agent` (lines 134-167): 503 when the service
is uninitialized, 400 when the body is absent or lacks the message key, else
delegate to `process_invoice_message` and map the envelope to 200 or 500 on
its success flag. -/
def chat_with_agent (service : Option InvoiceAgentService)
    (data : Option ChatRequest) (now : String) :
    HttpResp × List PlatformCall :=
  match service with
  | none => (⟨503, serviceUnavailableBody⟩, [])
  | some svc =>
    match data with
    | none =>
        (⟨400, { success := false,
                 error := some "Missing \x27message\x27 in request body" }⟩, [])
    | some d =>
      match d.message with
      | none =>
          (⟨400, { success := false,
                   error := some "Missing \x27message\x27 in request body" }⟩, [])
      | some user_message =>
        let r := process_invoice_message svc.platform svc.agent_id now
                   user_message d.thread_id
        if r.1.success then (⟨200, r.1⟩, r.2) else (⟨500, r.1⟩, r.2)

/-- The health endpoint `health_check` (lines 124-132): always 200, reporting
whether the service initialized. -/
def health_check (service : Option InvoiceAgentService) (now : String) :
    Nat × HealthBody :=
  (200,
   { status := "healthy", service := "Invoice Agent API", timestamp := now,
     agent_available := service.isSome })

/-- The new-thread endpoint `create_new_thread` (lines 169-190). -/
def create_new_thread (service : Option InvoiceAgentService) (now : String) :
    HttpResp × List PlatformCall :=
  match service with
  | none => (⟨503, serviceUnavailableBody⟩, [])
  | some svc =>
    match svc.platform.threads_create with
    | .ok thread =>
        (⟨200, { success := true, thread_id := some thread.id,
                 created_at := some now }⟩, [.createThread])
    | .error e =>
        (⟨500, { success := false,
                 error := some ("Failed to create thread: " ++ e) }⟩,
         [.createThread])

/-- The messages endpoint `get_thread_messages` (lines 192-227): list the
thread ascending and reshape exactly as in `process_invoice_message`.  Note
the failure body at lines 224-227 has no thread id key. -/
def get_thread_messages (service : Option InvoiceAgentService) (now : String)
    (thread_id : String) : HttpResp × List PlatformCall :=
  match service with
  | none => (⟨503, serviceUnavailableBody⟩, [])
  | some svc =>
    match svc.platform.messages_list thread_id with
    | .ok msgs =>
        (⟨200, { success := true, thread_id := some thread_id,
                 messages := some (formatConversation now msgs) }⟩,
         [.listMessages thread_id])
    | .error e =>
        (⟨500, { success := false,
                 error := some ("Failed to get messages: " ++ e) }⟩,
         [.listMessages thread_id])

/-- The SDK surface touched by `setup_client`: client construction from the
endpoint value and the liveness fetch of the agent by id.  Both receive the
environment values verbatim, null or not. -/
structure PlatformSDK where
  mkClient : Option String → Except String Unit
  get_agent : Option String → Except String String

/-- The state `setup_client` leaves on the service object. -/
structure SetupResult where
  endpoint : Option String
  agent_id : Option String
deriving DecidableEq, Repr

/-- `InvoiceAgentService.setup_client` (lines 26-52): read the two
environment values (the two `Option String` arguments model the `os.getenv`
results), construct the client with the endpoint as read, and fetch the agent
by the id as read.  The `except` clause re-raises, so an SDK exception
propagates as `Except.error`.  There is no check that either value is
present. -/
def setup_client (endpoint agent_id : Option String) (sdk : PlatformSDK) :
    Except String SetupResult :=
  match sdk.mkClient endpoint with
  | .error e => .error e
  | .ok _ =>
    match sdk.get_agent agent_id with
    | .error e => .error e
    | .ok _ => .ok { endpoint := endpoint, agent_id := agent_id }

/-- The thread id the code knows at the point a chat envelope is built: the
caller value when truthy; otherwise the id of the thread created during the
call, or still the caller value (null or empty) when creation raised. -/
def knownTid (p : Platform) (thread_id : Option String) : Option String :=
  if strTruthy thread_id then thread_id
  else
    match p.threads_create with
    | .ok thread => some thread.id
    | .error _ => thread_id

/-- The thread id the pipeline actually runs with, when it gets past the
creation step: the caller value when truthy, else the created thread id,
`none` when creation failed. -/
def resolveTid (p : Platform) (thread_id : Option String) : Option String :=
  if strTruthy thread_id then thread_id
  else p.threads_create.toOption.map AgentThread.id

/-- The thread id a trace entry is addressed to (`createThread` addresses
none: it is the call that brings a thread into being). -/
def callThread : PlatformCall → Option String
  | .createThread => none
  | .postMessage thread_id _ => some thread_id
  | .runAgent thread_id _ => some thread_id
  | .listMessages thread_id => some thread_id

/-- A platform on which every call succeeds; the listing returns one
assistant message carrying a timestamp. -/
def pGood : Platform :=
  { threads_create := .ok ⟨"t_new"⟩
    messages_create := fun _ _ => .ok ()
    runs_create_and_process := fun _ _ => .ok ⟨"completed", ""⟩
    messages_list := fun _ =>
      .ok [⟨"assistant", ["Hello"], some "2024-01-01T00:00:00"⟩] }

/-- A platform whose thread creation raises. -/
def pFailCreate : Platform :=
  { pGood with threads_create := .error "boom" }

/-- A platform whose message posting raises. -/
def pFailPost : Platform :=
  { pGood with messages_create := fun _ _ => .error "boom" }

/-- A platform whose run call raises. -/
def pFailRun : Platform :=
  { pGood with runs_create_and_process := fun _ _ => .error "boom" }

/-- A platform whose message listing raises. -/
def pFailList : Platform :=
  { pGood with messages_list := fun _ => .error "boom" }

/-- A platform whose run reaches the terminal status failed. -/
def pRunFailed : Platform :=
  { pGood with runs_create_and_process := fun _ _ => .ok ⟨"failed", "rate limit"⟩ }

/-- A platform whose listing returns one message with no text segment. -/
def pNoText : Platform :=
  { pGood with messages_list := fun _ => .ok [⟨"user", [], none⟩] }

/-- A platform whose listing returns one message without a creation
timestamp. -/
def pNoTimestamp : Platform :=
  { pGood with messages_list := fun _ => .ok [⟨"user", ["Hello"], none⟩] }

/-- A service built on `pFailList`. -/
def svcFailList : InvoiceAgentService := ⟨pFailList, some "agent1"⟩

/-- A service built on `pNoTimestamp`. -/
def svcNoTimestamp : InvoiceAgentService := ⟨pNoTimestamp, some "agent1"⟩

/-- A service built on `pGood`. -/
def svcGood : InvoiceAgentService := ⟨pGood, some "agent1"⟩

/-- An SDK that accepts whatever endpoint and agent id it is given,
null included. -/
def lenientSDK : PlatformSDK :=
  { mkClient := fun _ => .ok ()
    get_agent := fun _ => .ok "Invoice Agent" }

/-- Unrolling the formatting fold: the conversation is the filterMap that
keeps exactly the messages having a text segment, mapped to role, last
segment value, and timestamp with the current time as fallback. -/
theorem convStep_foldl (now : String) (msgs : List PlatformMsg)
    (acc : List ConvEntry) :
    msgs.foldl (convStep now) acc =
      acc ++ msgs.filterMap (fun msg =>
        msg.text_messages.getLast?.map (fun content =>
          { role := msg.role, content := content,
            timestamp := msg.created_at.getD now })) := by
  induction msgs generalizing acc with
  | nil => simp
  | cons m ms ih =>
      simp only [List.foldl_cons, List.filterMap_cons, ih]
      unfold convStep
      cases m.text_messages.getLast? <;> simp

/-- Closed form of `formatConversation`. -/
theorem formatConversation_eq (now : String) (msgs : List PlatformMsg) :
    formatConversation now msgs =
      msgs.filterMap (fun msg =>
        msg.text_messages.getLast?.map (fun content =>
          { role := msg.role, content := content,
            timestamp := msg.created_at.getD now })) := by
  unfold formatConversation
  rw [convStep_foldl]
  simp

/-- Once the thread id is settled, every envelope the pipeline can build
carries it. -/
theorem afterThread_thread_id (p : Platform) (aid : Option String)
    (now msg t : String) :
    (afterThread p aid now msg t).1.thread_id = some t := by
  unfold afterThread errorEnvelope
  cases p.messages_create t msg with
  | error e => rfl
  | ok u =>
    cases p.runs_create_and_process t aid with
    | error e => rfl
    | ok run =>
      cases hf : run.status == "failed" with
      | true => simp [hf]
      | false =>
        simp only [hf, Bool.false_eq_true, if_false]
        cases p.messages_list t <;> rfl

/-- Once the thread id is settled, the pipeline opens by posting the user
message to that thread and every call it makes is addressed to it. -/
theorem afterThread_trace (p : Platform) (aid : Option String)
    (now msg t : String) :
    (afterThread p aid now msg t).2.head? = some (.postMessage t msg) ∧
    ∀ c ∈ (afterThread p aid now msg t).2, callThread c = some t := by
  unfold afterThread
  cases p.messages_create t msg with
  | error e =>
      exact ⟨rfl, by intro c hc; simp at hc; subst hc; rfl⟩
  | ok u =>
    cases p.runs_create_and_process t aid with
    | error e =>
        refine ⟨rfl, ?_⟩
        intro c hc
        simp at hc
        rcases hc with h | h <;> subst h <;> rfl
    | ok run =>
      cases hf : run.status == "failed" with
      | true =>
          simp only [hf, if_true]
          refine ⟨rfl, ?_⟩
          intro c hc
          simp at hc
          rcases hc with h | h <;> subst h <;> rfl
      | false =>
        simp only [hf, Bool.false_eq_true, if_false]
        cases p.messages_list t with
        | error e =>
            refine ⟨rfl, ?_⟩
            intro c hc
            simp at hc
            rcases hc with h | h | h <;> subst h <;> rfl
        | ok msgs =>
            refine ⟨rfl, ?_⟩
            intro c hc
            simp at hc
            rcases hc with h | h | h <;> subst h <;> rfl

/-- When the creation step resolves the thread id to `t`, the envelope is
the one the pipeline builds for `t`. -/
theorem process_fst_of_resolve (p : Platform) (aid : Option String)
    (now msg : String) (tid : Option String) (t : String)
    (h : resolveTid p tid = some t) :
    (process_invoice_message p aid now msg tid).1 =
      (afterThread p aid now msg t).1 := by
  unfold process_invoice_message
  unfold resolveTid at h
  cases hb : strTruthy tid with
  | true =>
      simp only [hb, if_true] at h ⊢
      subst h
      rfl
  | false =>
      simp only [hb, Bool.false_eq_true, if_false] at h ⊢
      cases hc : p.threads_create with
      | error e => rw [hc] at h; simp [Except.toOption] at h
      | ok th =>
          rw [hc] at h
          simp [Except.toOption] at h
          subst h
          rfl

/-- When the creation step resolves the thread id to `t`, the trace is the
pipeline trace for `t`, preceded by the creation call when one was made. -/
theorem process_snd_of_resolve (p : Platform) (aid : Option String)
    (now msg : String) (tid : Option String) (t : String)
    (h : resolveTid p tid = some t) :
    (process_invoice_message p aid now msg tid).2 = (afterThread p aid now msg t).2 ∨
    (process_invoice_message p aid now msg tid).2 =
      .createThread :: (afterThread p aid now msg t).2 := by
  unfold process_invoice_message
  unfold resolveTid at h
  cases hb : strTruthy tid with
  | true =>
      simp only [hb, if_true] at h ⊢
      subst h
      exact Or.inl rfl
  | false =>
      simp only [hb, Bool.false_eq_true, if_false] at h ⊢
      cases hc : p.threads_create with
      | error e => rw [hc] at h; simp [Except.toOption] at h
      | ok th =>
          rw [hc] at h
          simp [Except.toOption] at h
          subst h
          exact Or.inr rfl

/-- The envelope built by `process_invoice_message` always carries the
thread id known at that point. -/
theorem process_thread_id (p : Platform) (aid : Option String)
    (now msg : String) (tid : Option String) :
    (process_invoice_message p aid now msg tid).1.thread_id = knownTid p tid := by
  unfold process_invoice_message knownTid
  cases hb : strTruthy tid with
  | true =>
      simp only [hb, if_true]
      cases ht : tid with
      | none => rw [ht] at hb; simp [strTruthy] at hb
      | some s =>
          have : s ≠ "" := by
            rw [ht] at hb
            simp [strTruthy, String.isEmpty] at hb
            intro h
            subst h
            simp at hb
          simp [afterThread_thread_id]
  | false =>
      simp only [hb, Bool.false_eq_true, if_false]
      cases p.threads_create with
      | error e => rfl
      | ok th => simp [afterThread_thread_id]

/-- For a request that passes validation, the chat endpoint body is exactly
the envelope returned by `process_invoice_message`. -/
theorem chat_body_eq (svc : InvoiceAgentService) (m : String)
    (tid : Option String) (now : String) :
    (chat_with_agent (some svc) (some ⟨some m, tid⟩) now).1.body =
      (process_invoice_message svc.platform svc.agent_id now m tid).1 := by
  unfold chat_with_agent
  cases hs : (process_invoice_message svc.platform svc.agent_id now m tid).1.success <;>
    simp [hs]

/-- C1 (counterexample): the claim that every endpoint response carries the
thread id whenever one is known fails on the messages endpoint: with the
caller-supplied thread id t1 in the path, a listing failure yields a 500
body whose thread id key is absent (source lines 222-227). -/
theorem C1_counterexample :
    (get_thread_messages (some svcFailList) "2024-01-01T00:00:00" "t1").1.status
        = 500 ∧
    (get_thread_messages (some svcFailList) "2024-01-01T00:00:00" "t1").1.body.thread_id
        = none :=
  ⟨rfl, rfl⟩

/-- C1 (amended): every envelope built by `process_invoice_message` carries
the thread id known at the point it is built, even on failure, and the chat
endpoint returns that envelope verbatim as its body; responses built directly
by the routing layer, such as the messages endpoint failure body, omit it. -/
theorem C1_envelope_carries_thread_id (p : Platform) (aid : Option String)
    (now msg : String) (tid : Option String) (svc : InvoiceAgentService) :
    (process_invoice_message p aid now msg tid).1.thread_id = knownTid p tid ∧
    (chat_with_agent (some svc) (some ⟨some msg, tid⟩) now).1.body.thread_id
      = knownTid svc.platform tid := by
  refine ⟨process_thread_id p aid now msg tid, ?_⟩
  rw [chat_body_eq]
  exact process_thread_id svc.platform svc.agent_id now msg tid

/-- C2: when the run ends in terminal status failed, the service returns
(never raises) the envelope with success false, the thread id and the
platform error detail, and the chat endpoint returns that envelope with
HTTP status 500, the thread id still in the body. -/
theorem C2_run_failed (p : Platform) (aid : Option String) (now msg t : String)
    (tid : Option String) (run : AgentRun)
    (hres : resolveTid p tid = some t)
    (hpost : p.messages_create t msg = .ok ())
    (hrun : p.runs_create_and_process t aid = .ok run)
    (hfail : run.status = "failed") :
    (process_invoice_message p aid now msg tid).1 =
      ({ success := false
         error := some ("Agent run failed: " ++ run.last_error)
         thread_id := some t } : RespBody) ∧
    (chat_with_agent (some ⟨p, aid⟩) (some ⟨some msg, tid⟩) now).1 =
      ⟨500, { success := false
              error := some ("Agent run failed: " ++ run.last_error)
              thread_id := some t }⟩ := by
  have henv : (process_invoice_message p aid now msg tid).1 =
      ({ success := false
         error := some ("Agent run failed: " ++ run.last_error)
         thread_id := some t } : RespBody) := by
    rw [process_fst_of_resolve p aid now msg tid t hres]
    unfold afterThread
    rw [hpost, hrun]
    simp [hfail]
  refine ⟨henv, ?_⟩
  unfold chat_with_agent
  simp [henv]

/-- C2 witness: a concrete platform whose run fails with error detail
rate limit, called with thread id t1. -/
theorem C2_run_failed_witness :
    (process_invoice_message pRunFailed (some "agent1") "now" "hi" (some "t1")).1 =
      ({ success := false
         error := some ("Agent run failed: " ++ "rate limit")
         thread_id := some "t1" } : RespBody) ∧
    (chat_with_agent (some ⟨pRunFailed, some "agent1"⟩)
        (some ⟨some "hi", some "t1"⟩) "now").1 =
      ⟨500, { success := false
              error := some ("Agent run failed: " ++ "rate limit")
              thread_id := some "t1" }⟩ :=
  C2_run_failed pRunFailed (some "agent1") "now" "hi" "t1" (some "t1")
    ⟨"failed", "rate limit"⟩ rfl rfl rfl rfl

/-- C4: a chat request with no JSON body, or one whose body lacks the
message key, gets exactly HTTP 400 with success false and a descriptive
error, and the platform call trace is empty. -/
theorem C4_missing_message (svc : InvoiceAgentService) (now : String) :
    chat_with_agent (some svc) none now =
      (⟨400, { success := false,
               error := some "Missing \x27message\x27 in request body" }⟩, []) ∧
    ∀ tid : Option String,
      chat_with_agent (some svc) (some { message := none, thread_id := tid }) now =
        (⟨400, { success := false,
                 error := some "Missing \x27message\x27 in request body" }⟩, []) := by
  exact ⟨rfl, fun tid => rfl⟩

/-- C5: with the service uninitialized, the chat, new-thread and messages
endpoints each answer 503 with the success false body and make no platform
call, and the health endpoint answers 200 with agent_available false. -/
theorem C5_uninitialized (data : Option ChatRequest) (now tid : String) :
    chat_with_agent none data now = (⟨503, serviceUnavailableBody⟩, []) ∧
    create_new_thread none now = (⟨503, serviceUnavailableBody⟩, []) ∧
    get_thread_messages none now tid = (⟨503, serviceUnavailableBody⟩, []) ∧
    serviceUnavailableBody.success = false ∧
    (health_check none now).1 = 200 ∧
    (health_check none now).2.agent_available = false :=
  ⟨rfl, rfl, rfl, rfl, rfl, rfl⟩

/-- C3: whichever step raises first (thread creation, message posting,
run execution, message listing), `process_invoice_message` returns the
success false envelope carrying the exception description and the thread
id known at that point; being a total Lean function over `Except`-valued
calls, it propagates no exception. -/
theorem C3_exceptions_caught (p : Platform) (aid : Option String)
    (now msg : String) (tid : Option String) (t e : String) (run : AgentRun) :
    (strTruthy tid = false → p.threads_create = .error e →
      (process_invoice_message p aid now msg tid).1 = errorEnvelope e tid) ∧
    (resolveTid p tid = some t → p.messages_create t msg = .error e →
      (process_invoice_message p aid now msg tid).1 = errorEnvelope e (some t)) ∧
    (resolveTid p tid = some t → p.messages_create t msg = .ok () →
      p.runs_create_and_process t aid = .error e →
      (process_invoice_message p aid now msg tid).1 = errorEnvelope e (some t)) ∧
    (resolveTid p tid = some t → p.messages_create t msg = .ok () →
      p.runs_create_and_process t aid = .ok run → run.status ≠ "failed" →
      p.messages_list t = .error e →
      (process_invoice_message p aid now msg tid).1 = errorEnvelope e (some t)) := by
  refine ⟨?_, ?_, ?_, ?_⟩
  · intro hb hc
    unfold process_invoice_message
    simp [hb, hc]
  · intro hres hpost
    rw [process_fst_of_resolve p aid now msg tid t hres]
    unfold afterThread
    rw [hpost]
  · intro hres hpost hrun
    rw [process_fst_of_resolve p aid now msg tid t hres]
    unfold afterThread
    rw [hpost, hrun]
  · intro hres hpost hrun hnf hlist
    rw [process_fst_of_resolve p aid now msg tid t hres]
    unfold afterThread
    rw [hpost, hrun]
    simp [hnf, hlist]

/-- C3 witness: the four failure points exercised on concrete platforms,
each yielding the caught-exception envelope. -/
theorem C3_exceptions_caught_witness :
    (process_invoice_message pFailCreate (some "agent1") "now" "hi" none).1 =
      errorEnvelope "boom" none ∧
    (process_invoice_message pFailPost (some "agent1") "now" "hi" (some "t1")).1 =
      errorEnvelope "boom" (some "t1") ∧
    (process_invoice_message pFailRun (some "agent1") "now" "hi" (some "t1")).1 =
      errorEnvelope "boom" (some "t1") ∧
    (process_invoice_message pFailList (some "agent1") "now" "hi" (some "t1")).1 =
      errorEnvelope "boom" (some "t1") :=
  ⟨(C3_exceptions_caught pFailCreate (some "agent1") "now" "hi" none "t1" "boom"
      ⟨"completed", ""⟩).1 rfl rfl,
   (C3_exceptions_caught pFailPost (some "agent1") "now" "hi" (some "t1") "t1" "boom"
      ⟨"completed", ""⟩).2.1 rfl rfl,
   (C3_exceptions_caught pFailRun (some "agent1") "now" "hi" (some "t1") "t1" "boom"
      ⟨"completed", ""⟩).2.2.1 rfl rfl rfl,
   (C3_exceptions_caught pFailList (some "agent1") "now" "hi" (some "t1") "t1" "boom"
      ⟨"completed", ""⟩).2.2.2 rfl rfl rfl (by decide) rfl⟩

/-- C6: with the thread id absent, a thread is created first, its id is the
one every later platform call is addressed to and the one the envelope
carries; with a truthy caller-supplied id, no creation call appears in the
trace, the first call posts the user message to the given thread, and the
envelope carries the given id unchanged. -/
theorem C6_thread_resolution (p : Platform) (aid : Option String)
    (now msg : String) (th : AgentThread) (t : String) :
    (p.threads_create = .ok th →
      (process_invoice_message p aid now msg none).1.thread_id = some th.id ∧
      (process_invoice_message p aid now msg none).2.head? = some .createThread ∧
      ∀ c ∈ (process_invoice_message p aid now msg none).2.tail,
        callThread c = some th.id) ∧
    (t ≠ "" →
      (process_invoice_message p aid now msg (some t)).1.thread_id = some t ∧
      PlatformCall.createThread ∉ (process_invoice_message p aid now msg (some t)).2 ∧
      (process_invoice_message p aid now msg (some t)).2.head? =
        some (.postMessage t msg)) := by
  constructor
  · intro hc
    have hproc : process_invoice_message p aid now msg none =
        ((afterThread p aid now msg th.id).1,
         .createThread :: (afterThread p aid now msg th.id).2) := by
      unfold process_invoice_message
      simp [strTruthy, hc]
    rw [hproc]
    refine ⟨afterThread_thread_id p aid now msg th.id, rfl, ?_⟩
    intro c hcm
    exact (afterThread_trace p aid now msg th.id).2 c hcm
  · intro hne
    have hemp : t.isEmpty = false := by
      cases h : t.isEmpty
      · rfl
      · exact absurd ((String.isEmpty_iff t).mp h) hne
    have hb : strTruthy (some t) = true := by
      simp [strTruthy, hemp]
    have hproc : process_invoice_message p aid now msg (some t) =
        afterThread p aid now msg t := by
      unfold process_invoice_message
      simp [hb]
    rw [hproc]
    refine ⟨afterThread_thread_id p aid now msg t, ?_,
      (afterThread_trace p aid now msg t).1⟩
    intro hmem
    have := (afterThread_trace p aid now msg t).2 _ hmem
    simp [callThread] at this

/-- C6 witness: on the all-success platform, a call without a thread id
creates thread t_new and uses it throughout; a call with thread id t1
makes no creation call and posts to t1. -/
theorem C6_thread_resolution_witness :
    ((process_invoice_message pGood (some "agent1") "now" "hi" none).1.thread_id
        = some "t_new" ∧
      (process_invoice_message pGood (some "agent1") "now" "hi" none).2.head?
        = some .createThread ∧
      ∀ c ∈ (process_invoice_message pGood (some "agent1") "now" "hi" none).2.tail,
        callThread c = some "t_new") ∧
    ((process_invoice_message pGood (some "agent1") "now" "hi" (some "t1")).1.thread_id
        = some "t1" ∧
      PlatformCall.createThread ∉
        (process_invoice_message pGood (some "agent1") "now" "hi" (some "t1")).2 ∧
      (process_invoice_message pGood (some "agent1") "now" "hi" (some "t1")).2.head?
        = some (.postMessage "t1" "hi")) :=
  ⟨(C6_thread_resolution pGood (some "agent1") "now" "hi" ⟨"t_new"⟩ "t1").1 rfl,
   (C6_thread_resolution pGood (some "agent1") "now" "hi" ⟨"t_new"⟩ "t1").2
     (by decide)⟩

/-- C7 (counterexample): with both configuration values absent and an SDK
that raises on neither call, `setup_client` completes successfully, so
initialization does not fail on absent configuration: there is no explicit
check (source lines 26-52 pass the `os.getenv` results straight through). -/
theorem C7_counterexample :
    setup_client none none lenientSDK = .ok { endpoint := none, agent_id := none } :=
  rfl

/-- C7 (amended): absence of either configuration value does not itself fail
initialization; `setup_client` forwards the possibly-null values to the
client construction and the agent fetch, and fails only when one of those
external calls raises. -/
theorem C7_no_explicit_validation (endpoint agent_id : Option String)
    (sdk : PlatformSDK) (c : Unit) (a : String)
    (h1 : sdk.mkClient endpoint = .ok c)
    (h2 : sdk.get_agent agent_id = .ok a) :
    setup_client endpoint agent_id sdk =
      .ok { endpoint := endpoint, agent_id := agent_id } := by
  unfold setup_client
  rw [h1, h2]

/-- C7 witness: the amended statement at both values absent, on the SDK
that accepts null input. -/
theorem C7_no_explicit_validation_witness :
    lenientSDK.mkClient none = .ok () ∧
    lenientSDK.get_agent none = .ok "Invoice Agent" ∧
    setup_client none none lenientSDK = .ok { endpoint := none, agent_id := none } :=
  ⟨rfl, rfl, C7_no_explicit_validation none none lenientSDK () "Invoice Agent" rfl rfl⟩

/-- C8 (counterexample): the platform returns one message on the thread, but
because it has no text segment the loop at lines 93-99 skips it, so the
returned conversation is empty: not every fetched message is mapped to a
record. -/
theorem C8_counterexample :
    pNoText.messages_list "t1" = .ok [⟨"user", [], none⟩] ∧
    (process_invoice_message pNoText (some "agent1") "now" "hi" (some "t1")).1 =
      ({ success := true, thread_id := some "t1", conversation := some [],
         run_status := some "completed" } : RespBody) :=
  ⟨rfl, rfl⟩

/-- C8 (amended): on a run with terminal status other than failed, the thread
messages are fetched (the ascending listing call is in the trace) and each
message having at least one text segment is mapped to role, last text segment
value, and timestamp; messages with no text segment are omitted; the call
returns success true with the thread id, that sequence, and the run
status. -/
theorem C8_success_mapping (p : Platform) (aid : Option String)
    (now msg t : String) (tid : Option String) (run : AgentRun)
    (msgs : List PlatformMsg)
    (hres : resolveTid p tid = some t)
    (hpost : p.messages_create t msg = .ok ())
    (hrun : p.runs_create_and_process t aid = .ok run)
    (hnf : run.status ≠ "failed")
    (hlist : p.messages_list t = .ok msgs) :
    (process_invoice_message p aid now msg tid).1 =
      ({ success := true
         thread_id := some t
         conversation := some (msgs.filterMap (fun m =>
           m.text_messages.getLast?.map (fun content =>
             { role := m.role, content := content,
               timestamp := m.created_at.getD now })))
         run_status := some run.status } : RespBody) ∧
    PlatformCall.listMessages t ∈ (process_invoice_message p aid now msg tid).2 := by
  have hafter : afterThread p aid now msg t =
      ({ success := true
         thread_id := some t
         conversation := some (formatConversation now msgs)
         run_status := some run.status },
       [.postMessage t msg, .runAgent t aid, .listMessages t]) := by
    unfold afterThread
    rw [hpost, hrun]
    simp [hnf, hlist]
  constructor
  · rw [process_fst_of_resolve p aid now msg tid t hres, hafter]
    simp [formatConversation_eq]
  · rcases process_snd_of_resolve p aid now msg tid t hres with h | h <;>
      rw [h, hafter] <;> simp

/-- C8 witness: the all-success platform with a caller-supplied thread id;
its one listed assistant message is mapped to the expected record. -/
theorem C8_success_mapping_witness :
    (process_invoice_message pGood (some "agent1") "now" "hi" (some "t1")).1 =
      ({ success := true
         thread_id := some "t1"
         conversation := some
           (([⟨"assistant", ["Hello"], some "2024-01-01T00:00:00"⟩] :
               List PlatformMsg).filterMap (fun m =>
             m.text_messages.getLast?.map (fun content =>
               { role := m.role, content := content,
                 timestamp := m.created_at.getD "now" })))
         run_status := some "completed" } : RespBody) ∧
    PlatformCall.listMessages "t1" ∈
      (process_invoice_message pGood (some "agent1") "now" "hi" (some "t1")).2 :=
  C8_success_mapping pGood (some "agent1") "now" "hi" "t1" (some "t1")
    ⟨"completed", ""⟩ [⟨"assistant", ["Hello"], some "2024-01-01T00:00:00"⟩]
    rfl rfl rfl (by decide) rfl

/-- C9 (counterexample): the same thread listed twice with no intervening
activity (the platform returns the same one-message list both times), but the
message lacks a creation timestamp, so each call stamps it with its own
current time (line 213) and the two sequences differ. -/
theorem C9_counterexample :
    (get_thread_messages (some svcNoTimestamp) "2024-01-01T10:00:00" "t1").1.body.messages
        = some [⟨"user", "Hello", "2024-01-01T10:00:00"⟩] ∧
    (get_thread_messages (some svcNoTimestamp) "2024-01-01T10:00:05" "t1").1.body.messages
        = some [⟨"user", "Hello", "2024-01-01T10:00:05"⟩] ∧
    (get_thread_messages (some svcNoTimestamp) "2024-01-01T10:00:00" "t1").1.body.messages
        ≠ (get_thread_messages (some svcNoTimestamp) "2024-01-01T10:00:05" "t1").1.body.messages := by
  refine ⟨rfl, rfl, ?_⟩
  have h1 : (get_thread_messages (some svcNoTimestamp) "2024-01-01T10:00:00" "t1").1.body.messages
      = some [⟨"user", "Hello", "2024-01-01T10:00:00"⟩] := rfl
  have h2 : (get_thread_messages (some svcNoTimestamp) "2024-01-01T10:00:05" "t1").1.body.messages
      = some [⟨"user", "Hello", "2024-01-01T10:00:05"⟩] := rfl
  rw [h1, h2]
  decide

/-- C9 (amended): two calls of the messages endpoint for the same thread with
the platform returning the same list both times yield identical responses,
provided every listed message carries its creation timestamp; otherwise the
current-time fallback can differ between the calls. -/
theorem C9_idempotent (svc : InvoiceAgentService) (t now1 now2 : String)
    (msgs : List PlatformMsg)
    (hl : svc.platform.messages_list t = .ok msgs)
    (hts : ∀ m ∈ msgs, m.created_at.isSome = true) :
    get_thread_messages (some svc) now1 t = get_thread_messages (some svc) now2 t := by
  have hfc : formatConversation now1 msgs = formatConversation now2 msgs := by
    rw [formatConversation_eq, formatConversation_eq]
    apply List.filterMap_congr
    intro m hm
    rcases Option.isSome_iff_exists.mp (hts m hm) with ⟨ts, hts2⟩
    simp [hts2]
  unfold get_thread_messages
  simp [hl, hfc]

/-- C9 witness: two listings of a thread whose one message is fully
timestamped agree although the ambient times differ. -/
theorem C9_idempotent_witness :
    (∀ m ∈ ([⟨"assistant", ["Hello"], some "2024-01-01T00:00:00"⟩] :
        List PlatformMsg), m.created_at.isSome = true) ∧
    get_thread_messages (some svcGood) "2024-02-02T08:00:00" "t1" =
      get_thread_messages (some svcGood) "2024-02-02T09:00:00" "t1" :=
  ⟨by decide,
   C9_idempotent svcGood "t1" "2024-02-02T08:00:00" "2024-02-02T09:00:00"
     [⟨"assistant", ["Hello"], some "2024-01-01T00:00:00"⟩] rfl (by decide)⟩

/-- C10: a chat request supplying the empty string as thread id is treated
as having none: the falsiness test at line 58 fires, a thread is created, and
the envelope carries the created id, not the supplied empty value; the chat
endpoint body agrees. -/
theorem C10_empty_thread_id (p : Platform) (aid : Option String)
    (now msg : String) (th : AgentThread)
    (h : p.threads_create = .ok th) (hne : th.id ≠ "") :
    (process_invoice_message p aid now msg (some "")).1.thread_id = some th.id ∧
    (process_invoice_message p aid now msg (some "")).1.thread_id ≠ some "" ∧
    (process_invoice_message p aid now msg (some "")).2.head? = some .createThread ∧
    (chat_with_agent (some ⟨p, aid⟩) (some ⟨some msg, some ""⟩) now).1.body.thread_id
      = some th.id := by
  have hb : strTruthy (some "") = false := by decide
  have hproc : process_invoice_message p aid now msg (some "") =
      ((afterThread p aid now msg th.id).1,
       .createThread :: (afterThread p aid now msg th.id).2) := by
    unfold process_invoice_message
    rw [hb]
    simp [h]
  refine ⟨?_, ?_, ?_, ?_⟩
  · rw [hproc]
    exact afterThread_thread_id p aid now msg th.id
  · rw [hproc]
    rw [afterThread_thread_id p aid now msg th.id]
    simp [hne]
  · rw [hproc]
    rfl
  · rw [chat_body_eq ⟨p, aid⟩ msg (some "") now]
    rw [hproc]
    exact afterThread_thread_id p aid now msg th.id

/-- C10 witness: the all-success platform creates thread t_new when the chat
request supplies the empty string as thread id. -/
theorem C10_empty_thread_id_witness :
    (process_invoice_message pGood (some "agent1") "now" "hi" (some "")).1.thread_id
        = some "t_new" ∧
    (process_invoice_message pGood (some "agent1") "now" "hi" (some "")).1.thread_id
        ≠ some "" ∧
    (process_invoice_message pGood (some "agent1") "now" "hi" (some "")).2.head?
        = some .createThread ∧
    (chat_with_agent (some ⟨pGood, some "agent1"⟩)
        (some ⟨some "hi", some ""⟩) "now").1.body.thread_id = some "t_new" :=
  C10_empty_thread_id pGood (some "agent1") "now" "hi" ⟨"t_new"⟩ rfl (by decide)

end InvoiceAgent
